import Mathlib

/-!
Shallow embedding of the atomix CLI command modules
(`cli/commands/lock.py`, `cli/commands/election.py`, `cli/commands/map.py`).

Python strings are modelled as lists of characters (`Name := List Char`);
`str.lower` is modelled character-wise with `Char.toLower` and
`str.startswith` with `List.isPrefixOf`.  Each `Action.execute` method is
modelled from the point where the HTTP response is in hand: the request it
issues is a separate definition where a claim needs it, and the printed
output is a list of `Printed` values, where `Printed.jsonOf t` records a
`print(response.json())` call on raw body `t` and `Printed.msg s` a
`print("...")` of a fixed string.
-/

abbrev Name := List Char

/-- Python `s.lower()`, character-wise. -/
def pyLower (s : Name) : Name := s.map Char.toLower

/-- Python `s.startswith(pre)`. -/
def pyStartswith (s pre : Name) : Bool := List.isPrefixOf pre s

/-- The loop condition shared by every `suggest`/`complete` method in
`lock.py`, `election.py` and `map.py`:
`name.lower().startswith(prefix.lower())`. -/
def ciMatches (p n : Name) : Bool := pyStartswith (pyLower n) (pyLower p)

/-- `LockResource.suggest` / `ElectionResource.suggest` / `MapResource.suggest`
/ `CandidateResource.suggest` / `KeyResource.suggest` (textually identical in
the source): walk the fetched `names` and return `name[len(prefix):]` for the
first case-insensitive match, `None` when there is none. -/
def Resource.suggest (names : List Name) (p : Name) : Option Name :=
  match names with
  | [] => none
  | n :: rest => if ciMatches p n then some (n.drop p.length) else Resource.suggest rest p

/-- `LockResource.complete` / `ElectionResource.complete` /
`MapResource.complete` / `CandidateResource.complete` / `KeyResource.complete`
(textually identical in the source): yield every case-insensitive match of the
fetched `names`, in order. -/
def Resource.complete (names : List Name) (p : Name) : List Name :=
  match names with
  | [] => []
  | n :: rest =>
    if ciMatches p n then n :: Resource.complete rest p else Resource.complete rest p

/-- Claim C1: for every prefix `P` and fetched name list `L`, `complete(P)`
yields exactly those elements of `L` whose lowercased form starts with the
lowercased form of `P`, in the order they appear in `L`. -/
theorem complete_eq_filter (L : List Name) (p : Name) :
    Resource.complete L p = L.filter (fun n => ciMatches p n) := by
  induction L with
  | nil => rfl
  | cons n rest ih =>
    by_cases h : ciMatches p n = true
    · simp [Resource.complete, List.filter_cons, h, ih]
    · simp [Resource.complete, List.filter_cons, h, ih]

/-- Claim C2: `suggest(P)` returns the characters after the first `len(P)`
characters of the first element of `L` that matches `P` as a case-insensitive
prefix, and `None` when no element matches; in particular on
`["a-lock", "b-lock"]` with `P = "a"` it returns `"-lock"`. -/
theorem suggest_eq_first_match_suffix :
    (∀ (L : List Name) (p : Name),
        Resource.suggest L p
          = (L.find? (fun n => ciMatches p n)).map (fun n => n.drop p.length)) ∧
    Resource.suggest ["a-lock".data, "b-lock".data] "a".data = some "-lock".data := by
  constructor
  · intro L p
    induction L with
    | nil => rfl
    | cons n rest ih =>
      by_cases h : ciMatches p n = true
      · simp [Resource.suggest, List.find?_cons, h]
      · simp [Resource.suggest, List.find?_cons, h, ih]
  · decide

/-- Claim C9: `suggest(P)` is `None` exactly when `complete(P)` yields no
element, and otherwise equals the first element of `complete(P)` with its
first `len(P)` characters removed. -/
theorem suggest_none_iff_complete_nil (L : List Name) (p : Name) :
    (Resource.suggest L p = none ↔ Resource.complete L p = []) ∧
    Resource.suggest L p
      = (Resource.complete L p).head?.map (fun n => n.drop p.length) := by
  induction L with
  | nil => exact ⟨by simp [Resource.suggest, Resource.complete], rfl⟩
  | cons n rest ih =>
    by_cases h : ciMatches p n = true
    · simp [Resource.suggest, Resource.complete, h]
    · simp [Resource.suggest, Resource.complete, h, ih.1, ih.2]

/-- Claim C10: a case-insensitively matching name contributes its original
characters after position `len(P)`, so `P ++ suggest(P)` can differ from the
matched name when the casings differ: witnessed by `P = "A"` against name
`"a-lock"`. -/
theorem suggest_keeps_original_suffix :
    (∀ (p n : Name) (L : List Name),
        ciMatches p n = true →
          Resource.suggest (n :: L) p = some (n.drop p.length)) ∧
    (ciMatches "A".data "a-lock".data = true ∧
      Resource.suggest ["a-lock".data] "A".data
        = some ("a-lock".data.drop "A".data.length) ∧
      "A".data ++ ("a-lock".data.drop "A".data.length) ≠ "a-lock".data) := by
  constructor
  · intro p n L h
    simp [Resource.suggest, h]
  · refine ⟨by decide, by decide, by decide⟩

/-- Concrete instantiation of `suggest_keeps_original_suffix`: the prefix
`"A"` matches `"a-lock"` and the suggestion keeps the original suffix. -/
theorem suggest_keeps_original_suffix_w :
    Resource.suggest ["a-lock".data] "A".data
      = some ("a-lock".data.drop "A".data.length) :=
  suggest_keeps_original_suffix.1 "A".data "a-lock".data [] (by decide)

/-- An HTTP response as observed by the CLI: the status code and the raw body
`text`.  `response.json()` — the JSON decoding of `text`, performed by the
collaborator library — is recorded by the `Printed.jsonOf` constructor. -/
structure Response where
  status_code : Nat
  text : String

/-- One line printed by an action: `jsonOf t` stands for
`print(response.json())` on a response whose raw body is `t` (so a JSON
decode of the body was attempted), `msg s` for `print(s)` of a fixed
string. -/
inductive Printed where
  | jsonOf (text : String)
  | msg (s : String)
deriving DecidableEq

/-- Whether this printed line came from `print(response.json())`, i.e.
whether producing it decoded the response body as JSON. -/
def Printed.isJson : Printed → Bool
  | .jsonOf _ => true
  | .msg _ => false

/-- `LockAction.execute` (lock.py): print the JSON body on 200, else print
`"Failed to acquire lock"`. -/
def LockAction.execute (r : Response) : List Printed :=
  if r.status_code = 200 then [.jsonOf r.text] else [.msg "Failed to acquire lock"]

/-- `UnlockAction.execute` (lock.py). -/
def UnlockAction.execute (r : Response) : List Printed :=
  if r.status_code = 200 then [.jsonOf r.text] else [.msg "Failed to release lock"]

/-- `RunAction.execute` (election.py). -/
def RunAction.execute (r : Response) : List Printed :=
  if r.status_code = 200 then [.jsonOf r.text] else [.msg "Failed to enter election"]

/-- `LeaderAction.execute` (election.py). -/
def LeaderAction.execute (r : Response) : List Printed :=
  if r.status_code = 200 then [.jsonOf r.text] else [.msg "Failed to find leader"]

/-- `ListenAction.execute` (election.py). -/
def ListenAction.execute (r : Response) : List Printed :=
  if r.status_code = 200 then [.jsonOf r.text] else [.msg "Failed to listen for election"]

/-- `WithdrawAction.execute` (election.py): silent on 200, failure line on
any other status. -/
def WithdrawAction.execute (r : Response) : List Printed :=
  if r.status_code ≠ 200 then [.msg "Failed to withdraw from election"] else []

/-- `AnointAction.execute` (election.py). -/
def AnointAction.execute (r : Response) : List Printed :=
  if r.status_code ≠ 200 then [.msg "Failed to anoint leader"] else []

/-- `PromoteAction.execute` (election.py). -/
def PromoteAction.execute (r : Response) : List Printed :=
  if r.status_code ≠ 200 then [.msg "Failed to promote candidate"] else []

/-- `EvictAction.execute` (election.py). -/
def EvictAction.execute (r : Response) : List Printed :=
  if r.status_code ≠ 200 then [.msg "Failed to evict candidate"] else []

/-- `GetAction.execute` (map.py): on 200 print the JSON body only when the
raw body is non-empty, else print the failure line. -/
def GetAction.execute (r : Response) : List Printed :=
  if r.status_code = 200 then
    (if r.text ≠ "" then [.jsonOf r.text] else [])
  else [.msg "Failed to get from map"]

/-- `PutAction.execute` (map.py), response side; the request it issues is
`PutAction.request` below. -/
def PutAction.execute (r : Response) : List Printed :=
  if r.status_code = 200 then
    (if r.text ≠ "" then [.jsonOf r.text] else [])
  else [.msg "Failed to put to map"]

/-- `RemoveAction.execute` (map.py). -/
def RemoveAction.execute (r : Response) : List Printed :=
  if r.status_code = 200 then
    (if r.text ≠ "" then [.jsonOf r.text] else [])
  else [.msg "Failed to remove key"]

/-- `SizeAction.execute` (map.py). -/
def SizeAction.execute (r : Response) : List Printed :=
  if r.status_code = 200 then [.jsonOf r.text] else [.msg "Failed to read map"]

/-- `ClearAction.execute` (map.py). -/
def ClearAction.execute (r : Response) : List Printed :=
  if r.status_code ≠ 200 then [.msg "Failed to clear map"] else []

/-- Every `Action` subclass defined across the three command modules. -/
inductive ActionKind where
  | lockA | unlockA | runA | leaderA | listenA | withdrawA | anointA
  | promoteA | evictA | getA | putA | removeA | sizeA | clearA
deriving DecidableEq

/-- Dispatch from an action to its (response side of) `execute`. -/
def exec : ActionKind → Response → List Printed
  | .lockA => LockAction.execute
  | .unlockA => UnlockAction.execute
  | .runA => RunAction.execute
  | .leaderA => LeaderAction.execute
  | .listenA => ListenAction.execute
  | .withdrawA => WithdrawAction.execute
  | .anointA => AnointAction.execute
  | .promoteA => PromoteAction.execute
  | .evictA => EvictAction.execute
  | .getA => GetAction.execute
  | .putA => PutAction.execute
  | .removeA => RemoveAction.execute
  | .sizeA => SizeAction.execute
  | .clearA => ClearAction.execute

/-- The fixed failure string each action prints on a non-200 status, exactly
as it appears in the source. -/
def failMsg : ActionKind → String
  | .lockA => "Failed to acquire lock"
  | .unlockA => "Failed to release lock"
  | .runA => "Failed to enter election"
  | .leaderA => "Failed to find leader"
  | .listenA => "Failed to listen for election"
  | .withdrawA => "Failed to withdraw from election"
  | .anointA => "Failed to anoint leader"
  | .promoteA => "Failed to promote candidate"
  | .evictA => "Failed to evict candidate"
  | .getA => "Failed to get from map"
  | .putA => "Failed to put to map"
  | .removeA => "Failed to remove key"
  | .sizeA => "Failed to read map"
  | .clearA => "Failed to clear map"

/-- Claim C4: for every action, a response with status ≠ 200 makes it print
exactly its fixed failure string and decode no JSON from the body; the
failure line is printed exactly when the status differs from 200, so
success versus failure depends on the status code alone. -/
theorem action_failure_behaviour (k : ActionKind) (r : Response) :
    (exec k r = [Printed.msg (failMsg k)] ↔ r.status_code ≠ 200) ∧
    (r.status_code ≠ 200 → ∀ x ∈ exec k r, x.isJson = false) := by
  obtain ⟨s, t⟩ := r
  by_cases h : s = 200 <;> by_cases ht : t = "" <;> cases k <;>
    simp [exec, LockAction.execute, UnlockAction.execute, RunAction.execute,
      LeaderAction.execute, ListenAction.execute, WithdrawAction.execute,
      AnointAction.execute, PromoteAction.execute, EvictAction.execute,
      GetAction.execute, PutAction.execute, RemoveAction.execute,
      SizeAction.execute, ClearAction.execute, failMsg, Printed.isJson, h, ht]

/-- Concrete instantiation of `action_failure_behaviour`: the lock action on
a 500 response prints exactly its failure string. -/
theorem action_failure_behaviour_w :
    exec ActionKind.lockA ⟨500, "body"⟩ = [Printed.msg (failMsg ActionKind.lockA)] :=
  (action_failure_behaviour ActionKind.lockA ⟨500, "body"⟩).1.mpr (by decide)

/-- Claim C5: map `get`, `put` and `remove` print nothing when the response
has status 200 and an empty body. -/
theorem map_ops_silent_on_empty_body (r : Response)
    (h : r.status_code = 200) (he : r.text = "") :
    GetAction.execute r = [] ∧ PutAction.execute r = [] ∧
    RemoveAction.execute r = [] := by
  simp [GetAction.execute, PutAction.execute, RemoveAction.execute, h, he]

/-- Concrete instantiation of `map_ops_silent_on_empty_body` at a 200
response with empty body. -/
theorem map_ops_silent_on_empty_body_w :
    GetAction.execute ⟨200, ""⟩ = [] :=
  (map_ops_silent_on_empty_body ⟨200, ""⟩ rfl rfl).1

/-- Claim C6 (counterexample): on a 500 response the anoint action does not
print `"Failed to anoint"`; it prints `"Failed to anoint leader"`. -/
theorem anoint_failure_string_cex :
    AnointAction.execute ⟨500, ""⟩ ≠ [Printed.msg "Failed to anoint"] ∧
    AnointAction.execute ⟨500, ""⟩ = [Printed.msg "Failed to anoint leader"] := by
  constructor
  · decide
  · decide

/-- Claim C6 (amended): on a status other than 200, anoint prints
`"Failed to anoint leader"`, promote prints `"Failed to promote candidate"`
and evict prints `"Failed to evict candidate"`. -/
theorem anoint_promote_evict_failure (r : Response) (h : r.status_code ≠ 200) :
    AnointAction.execute r = [Printed.msg "Failed to anoint leader"] ∧
    PromoteAction.execute r = [Printed.msg "Failed to promote candidate"] ∧
    EvictAction.execute r = [Printed.msg "Failed to evict candidate"] := by
  simp [AnointAction.execute, PromoteAction.execute, EvictAction.execute, h]

/-- Concrete instantiation of `anoint_promote_evict_failure` at status 500. -/
theorem anoint_promote_evict_failure_w :
    AnointAction.execute ⟨500, ""⟩ = [Printed.msg "Failed to anoint leader"] :=
  (anoint_promote_evict_failure ⟨500, ""⟩ (by decide)).1

/-- `LockResource._get_lock_names` / `ElectionResource._get_election_names` /
`MapResource._get_map_names` / `CandidateResource._get_candidates` /
`KeyResource._get_map_keys` (all the same shape in the source): on a 200
response return the decoded JSON list of names (`decoded`, the collaborator's
decoding of the body), otherwise return the empty list. -/
def Resource.fetchNames (r : Response) (decoded : List Name) : List Name :=
  if r.status_code = 200 then decoded else []

/-- Claim C7: when the collection fetch returns a non-200 status the resource
behaves as if the fetched list were empty — `suggest` returns `None` and
`complete` yields no element — and the (total) functions surface no error. -/
theorem fetch_non200_degrades (r : Response) (decoded : List Name) (p : Name)
    (h : r.status_code ≠ 200) :
    Resource.suggest (Resource.fetchNames r decoded) p = none ∧
    Resource.complete (Resource.fetchNames r decoded) p = [] := by
  simp [Resource.fetchNames, h, Resource.suggest, Resource.complete]

/-- Concrete instantiation of `fetch_non200_degrades` at status 500. -/
theorem fetch_non200_degrades_w :
    Resource.suggest (Resource.fetchNames ⟨500, "x"⟩ [['a']]) [] = none :=
  (fetch_non200_degrades ⟨500, "x"⟩ [['a']] [] (by decide)).1

/-- Claim C8: the operations that are silent on success — election withdraw,
anoint, promote, evict, and map clear — print nothing when the status is 200
and print exactly their failure string otherwise. -/
theorem silent_ops_output (r : Response) :
    WithdrawAction.execute r
      = (if r.status_code = 200 then []
         else [Printed.msg "Failed to withdraw from election"]) ∧
    AnointAction.execute r
      = (if r.status_code = 200 then [] else [Printed.msg "Failed to anoint leader"]) ∧
    PromoteAction.execute r
      = (if r.status_code = 200 then []
         else [Printed.msg "Failed to promote candidate"]) ∧
    EvictAction.execute r
      = (if r.status_code = 200 then [] else [Printed.msg "Failed to evict candidate"]) ∧
    ClearAction.execute r
      = (if r.status_code = 200 then [] else [Printed.msg "Failed to clear map"]) := by
  by_cases h : r.status_code = 200 <;>
    simp [WithdrawAction.execute, AnointAction.execute, PromoteAction.execute,
      EvictAction.execute, ClearAction.execute, h]

/-- An HTTP verb used by the `requests` calls in the source. -/
inductive Verb where
  | get | post | put | delete
deriving DecidableEq

/-- An HTTP request as issued through the `requests` library: the verb, the
formatted URL path, the extra headers, and the request body — `none` when no
`data=` argument is passed to `requests`, in which case the request is sent
with an empty body. -/
structure Request where
  verb : Verb
  url : Name
  headers : List (String × String)
  body : Option String
deriving DecidableEq

/-- Index of the first position of `s` at which `key` occurs, if any. -/
def findSub (key : Name) : Name → Option Nat
  | [] => if List.isPrefixOf key ([] : Name) then some 0 else none
  | c :: rest =>
    if List.isPrefixOf key (c :: rest) then some 0
    else (findSub key rest).map (fun i => i + 1)

/-- Replace the first occurrence of `key` in `s` by `val`; `s` unchanged when
`key` does not occur. -/
def substOnce (key val s : Name) : Name :=
  match findSub key s with
  | none => s
  | some i => s.take i ++ val ++ s.drop (i + key.length)

/-- Modelled from the spec: `self.cli.path` — whose defining module is not
under `src/` — formats a path template against the base path, substituting
each `\x7bparam\x7d` placeholder with the keyword argument of that name, as
Python `str.format` does; a keyword argument whose placeholder does not occur
in the template (such as `value` for the map-put template) leaves the path
unchanged. -/
def cliPath (template : String) (args : List (String × String)) : Name :=
  args.foldl
    (fun acc kv => substOnce ("\x7b".data ++ kv.1.data ++ "\x7d".data) kv.2.data acc)
    template.data

/-- `PutAction.execute` (map.py), request side: the single HTTP call it
issues is
`requests.put(self.cli.path('/v1/primitives/maps/{name}/{key}', name=name, key=key, value=value), headers={'content-type': 'text/plain'})`.
`value` is passed to `cli.path` as a format argument (the template has no
`\x7bvalue\x7d` placeholder) and `requests.put` receives no `data=` argument,
so the request carries no body. -/
def PutAction.request (name key value : String) : Request :=
  ⟨Verb.put,
    cliPath "/v1/primitives/maps/{name}/{key}"
      [("name", name), ("key", key), ("value", value)],
    [("content-type", "text/plain")],
    none⟩

/-- Claim C3, evaluated at the failing input: the map put for name `"m"`,
key `"k"`, value `"v"` issues one PUT to `/v1/primitives/maps/m/k` with a
`text/plain` content-type header but with no request body at all — the value
`"v"` appears neither in the body nor in the path. -/
theorem put_request_carries_no_body :
    PutAction.request "m" "k" "v"
      = ⟨Verb.put, "/v1/primitives/maps/m/k".data,
          [("content-type", "text/plain")], none⟩ := by
  decide
